import Mathlib

/-!
Verification of the Lineage dashboard development HTTP server
(src/examples/serve_dashboard.py).

The script subclasses CPython's http.server.SimpleHTTPRequestHandler,
overriding exactly two hooks:

  * end_headers  — injects a Cache-Control header before the base class
                   flushes the buffered header block (lines 26-29);
  * log_message  — prints the interpolated log line to stdout with a
                   literal [HTTP] prefix (lines 31-33),

and wraps socketserver.TCPServer in a main function that prints a banner,
serves forever, and maps KeyboardInterrupt / OSError bind failures to
console diagnostics (lines 35-63).

The embedding below models, faithfully to the sources:

  * the per-connection handler state (header buffer, wire, stdout);
  * the two overridden hooks, from serve_dashboard.py;
  * the base-class machinery those hooks plug into — send_header,
    send_response_only, flush_headers, end_headers, log_request,
    log_error, send_response, send_error — from CPython 3.11
    Lib/http/server.py (the collaborator the script extends); all calls
    to self.log_message and self.end_headers dynamically dispatch to the
    subclass overrides, so the model wires them to the overrides;
  * the GET path of SimpleHTTPRequestHandler.send_head restricted to
    plain files: the filesystem is a finite map from request path to
    file content; directories, redirects and If-Modified-Since handling
    are not modelled (no claim concerns them), and translate_path is
    the identity on the map keys (path resolution is explicitly out of
    scope per the specification);
  * the process lifecycle of main: banner, bind outcome, interrupt and
    OSError handling, modelled as a function from the launch-time world
    (argv, environment, interrupt-or-bind-error event) to the printed
    lines, the termination mode, and the listener bookkeeping.

Restrictions noted in doc comments: the handler model fixes
request_version to HTTP/1.x (for an HTTP/0.9 request the base class
suppresses the whole header block), and the request command is GET
(so send_error writes its HTML body).
-/

set_option autoImplicit false

namespace ServeDashboard

/-- serve_dashboard.py line 23: the fixed listening port. -/
def PORT : Nat := 8000

/-- serve_dashboard.py line 28: the exact Cache-Control value injected
into every response. -/
def cacheControlValue : String := "no-store, no-cache, must-revalidate, max-age=0"

/-- Python percent-interpolation, restricted to the directives actually
used by the logging call sites of http/server.py: %s, %d and %%.
Arguments arrive already rendered as strings (the call sites pass str(..)
values or pass integers to %d, whose decimal rendering the caller of this
model supplies). A directive with no remaining argument is kept literally;
no modelled call site under-supplies arguments. -/
def percentInterpGo : List Char → List String → String
  | [], _ => ""
  | '%' :: 's' :: rest, a :: args => a ++ percentInterpGo rest args
  | '%' :: 'd' :: rest, a :: args => a ++ percentInterpGo rest args
  | '%' :: '%' :: rest, args => "%" ++ percentInterpGo rest args
  | c :: rest, args => String.singleton c ++ percentInterpGo rest args

/-- Python format %-interpolation (restricted; see percentInterpGo). -/
def percentInterp (fmt : String) (args : List String) : String :=
  percentInterpGo fmt.data args

/-- One line of the buffered response-header block: the status line
pushed by send_response_only, a name/value header pushed by send_header,
or the blank separator pushed by end_headers. -/
inductive HeaderLine where
  | statusLine (code : Nat) (message : String)
  | header (name value : String)
  | blank
deriving Repr, DecidableEq

/-- Per-connection handler state.

requestline is the raw first request line (used by log_request);
headersBuffer models _headers_buffer; wire is the header block already
flushed to the socket; bodyWire the body bytes written after it; stdout
the lines printed by the overridden log_message. serverVersion, httpDate
and lastModified carry the environment-dependent strings produced by
version_string(), date_time_string() and date_time_string(st_mtime). -/
structure Handler where
  requestline : String
  headersBuffer : List HeaderLine
  wire : List HeaderLine
  bodyWire : List String
  stdout : List String
  serverVersion : String
  httpDate : String
  lastModified : String
deriving Repr, DecidableEq

/-- serve_dashboard.py lines 31-33, MyHTTPRequestHandler.log_message:
print the %-interpolated message to stdout behind a literal
[HTTP] prefix. This override replaces the base-class logger, so every
logging call of the collaborator lands here. -/
def log_message (h : Handler) (fmt : String) (args : List String) : Handler :=
  { h with stdout := h.stdout ++ ["[HTTP] " ++ percentInterp fmt args] }

/-- http/server.py BaseHTTPRequestHandler.send_header: append one
name/value line to the header buffer (request_version fixed to HTTP/1.x;
the close_connection bookkeeping has no observable effect in the modelled
single-response paths and is omitted). -/
def send_header (h : Handler) (name value : String) : Handler :=
  { h with headersBuffer := h.headersBuffer ++ [HeaderLine.header name value] }

/-- http/server.py BaseHTTPRequestHandler.send_response_only: append the
status line to the header buffer; a missing message defaults from the
responses table at the caller. -/
def send_response_only (h : Handler) (code : Nat) (message : String) : Handler :=
  { h with headersBuffer := h.headersBuffer ++ [HeaderLine.statusLine code message] }

/-- http/server.py BaseHTTPRequestHandler.flush_headers: write the
buffered header block to the socket and clear the buffer. -/
def flush_headers (h : Handler) : Handler :=
  { h with wire := h.wire ++ h.headersBuffer, headersBuffer := [] }

/-- http/server.py BaseHTTPRequestHandler.end_headers (the super() call
of the override): append the blank separator line and flush. -/
def base_end_headers (h : Handler) : Handler :=
  flush_headers { h with headersBuffer := h.headersBuffer ++ [HeaderLine.blank] }

/-- serve_dashboard.py lines 26-29, MyHTTPRequestHandler.end_headers:
send the Cache-Control header, then run the base-class end_headers. -/
def end_headers (h : Handler) : Handler :=
  base_end_headers (send_header h "Cache-Control" cacheControlValue)

/-- http/server.py BaseHTTPRequestHandler.log_request: log the request
line, status code and size through self.log_message, which dispatches to
the subclass override. The size argument is the default placeholder. -/
def log_request (h : Handler) (code : Nat) : Handler :=
  log_message h "\"%s\" %s %s" [h.requestline, toString code, "-"]

/-- http/server.py BaseHTTPRequestHandler.log_error: forward to
self.log_message unchanged (dispatches to the subclass override). -/
def log_error (h : Handler) (fmt : String) (args : List String) : Handler :=
  log_message h fmt args

/-- http/server.py: the (shortmsg, longmsg) entries of
BaseHTTPRequestHandler.responses for the status codes reachable in the
modelled paths. -/
def responses : Nat → Option (String × String)
  | 200 => some ("OK", "Request fulfilled, document follows")
  | 404 => some ("Not Found", "Nothing matches the given URI")
  | _ => none

/-- http/server.py BaseHTTPRequestHandler.send_response: log the request,
buffer the status line, then buffer the Server and Date headers. -/
def send_response (h : Handler) (code : Nat) (messageOpt : Option String) : Handler :=
  let message := messageOpt.getD (((responses code).map Prod.fst).getD "")
  let h1 := log_request h code
  let h2 := send_response_only h1 code message
  let h3 := send_header h2 "Server" h.serverVersion
  send_header h3 "Date" h.httpDate

/-- html.escape with quote=False: replace ampersand, less-than and
greater-than by their entities. -/
def htmlEscapeChar (c : Char) : String :=
  if c = '&' then "&amp;"
  else if c = '<' then "&lt;"
  else if c = '>' then "&gt;"
  else String.singleton c

/-- html.escape with quote=False over a whole string. -/
def htmlEscape (s : String) : String :=
  String.join (s.data.map htmlEscapeChar)

/-- http/server.py DEFAULT_ERROR_CONTENT_TYPE. -/
def error_content_type : String := "text/html;charset=utf-8"

/-- http/server.py DEFAULT_ERROR_MESSAGE interpolated at
code / message / explain (the message and explain arguments arrive
already html-escaped, as at the send_error call site). -/
def errorBody (code : Nat) (message explain : String) : String :=
  "<!DOCTYPE HTML>\n<html lang=\"en\">\n    <head>\n        <meta charset=\"utf-8\">\n        <title>Error response</title>\n    </head>\n    <body>\n        <h1>Error response</h1>\n        <p>Error code: " ++ toString code ++ "</p>\n        <p>Message: " ++ message ++ ".</p>\n        <p>Error code explanation: " ++ toString code ++ " - " ++ explain ++ ".</p>\n    </body>\n</html>\n"

/-- http/server.py BaseHTTPRequestHandler.send_error: log the error, send
the status line (logging the request a second time through
send_response), send Connection: close, and — for codes with a body —
Content-Type and Content-Length followed by the HTML body. end_headers
dispatches to the subclass override. The request command is GET in the
modelled paths, so the body is written whenever present. -/
def send_error (h : Handler) (code : Nat) (messageOpt explainOpt : Option String) : Handler :=
  let pair := (responses code).getD ("???", "???")
  let message := messageOpt.getD pair.1
  let explain := explainOpt.getD pair.2
  let h1 := log_error h "code %d, message %s" [toString code, message]
  let h2 := send_response h1 code (some message)
  let h3 := send_header h2 "Connection" "close"
  if 200 ≤ code ∧ code ≠ 204 ∧ code ≠ 205 ∧ code ≠ 304 then
    let body := errorBody code (htmlEscape message) (htmlEscape explain)
    let h4 := send_header h3 "Content-Type" error_content_type
    let h5 := send_header h4 "Content-Length" (toString body.utf8ByteSize)
    let h6 := end_headers h5
    { h6 with bodyWire := h6.bodyWire ++ [body] }
  else
    end_headers h3

/-- The filesystem visible to the handler: a finite association of
request paths to file contents. -/
structure Fs where
  files : List (String × String)
deriving Repr, DecidableEq

/-- http/server.py SimpleHTTPRequestHandler.guess_type, restricted to the
extensions of the served dashboard assets; anything else gets the
mimetypes fallback. -/
def guess_type (path : String) : String :=
  if path.endsWith ".html" then "text/html"
  else if path.endsWith ".js" then "text/javascript"
  else "application/octet-stream"

/-- http/server.py SimpleHTTPRequestHandler.send_head, plain-file GET
path: an existing file yields send_response(200) plus Content-type,
Content-Length and Last-Modified headers and end_headers, returning the
content to stream; a missing file yields send_error(404, "File not
found"). Directory handling, redirects and If-Modified-Since are outside
the modelled paths. -/
def send_head (fs : Fs) (h : Handler) (path : String) : Handler × Option String :=
  match fs.files.lookup path with
  | none => (send_error h 404 (some "File not found") none, none)
  | some content =>
      let h1 := send_response h 200 none
      let h2 := send_header h1 "Content-type" (guess_type path)
      let h3 := send_header h2 "Content-Length" (toString content.utf8ByteSize)
      let h4 := send_header h3 "Last-Modified" h.lastModified
      (end_headers h4, some content)

/-- http/server.py SimpleHTTPRequestHandler.do_GET: send_head, then
stream the file content when one was returned. -/
def do_GET (fs : Fs) (h : Handler) (path : String) : Handler :=
  match send_head fs h path with
  | (h1, none) => h1
  | (h1, some content) => { h1 with bodyWire := h1.bodyWire ++ [content] }

/-- Split a character list at every slash (the behavior of splitting a
string on the separator "/": the empty input yields one empty
component). -/
def splitSlash : List Char → List (List Char)
  | [] => [[]]
  | c :: rest =>
      match splitSlash rest with
      | [] => [[]]
      | s :: ss => if c = '/' then [] :: s :: ss else (c :: s) :: ss

/-- Whether a path string is absolute (begins with a slash). -/
def isAbsolutePath (p : String) : Bool :=
  match p.data with
  | '/' :: _ => true
  | _ => false

/-- pathlib Path(p).parent for the slash-separated paths the model uses
(no trailing slashes): drop the last component; a bare filename has
parent "." and a root-level file has parent "/". -/
def parentDir (p : String) : String :=
  let parts := (splitSlash p.data).dropLast
  if parts = [] then "."
  else if parts = [[]] then "/"
  else String.intercalate "/" (parts.map String.mk)

/-- pathlib Path(p).absolute(): an absolute path is returned as is, a
relative one is anchored at the current working directory (pathlib drops
a lone "." component when anchoring). -/
def absolutize (cwd p : String) : String :=
  if p = "." then cwd
  else if isAbsolutePath p then p
  else cwd ++ "/" ++ p

/-- serve_dashboard.py line 18: SCRIPT_DIR is the absolutized parent
directory of the script file, as a function of the interpreter-provided
script path and the invocation working directory. (CPython 3.9+ already
hands the script path to the module as an absolute path.) -/
def SCRIPT_DIR (file cwd : String) : String :=
  absolutize cwd (parentDir file)

/-- What ends the accept loop: either a user interrupt during
serve_forever, or the TCPServer constructor failing to bind with an
OSError carrying the given errno. -/
inductive ServeEvent where
  | interrupted
  | bindError (errno : Int)
deriving Repr, DecidableEq

/-- How the process ends: main returns normally (interpreter exits with
status 0), or an exception is re-raised out of main and left uncaught
(interpreter prints a traceback and exits with a nonzero status). -/
inductive Termination where
  | normal
  | uncaught (errno : Int)
deriving Repr, DecidableEq

/-- The interpreter's exit status for each termination mode: 0 for a
normal return, 1 for an uncaught exception (CPython's fixed status for
an unhandled exception). -/
def exitCode : Termination → Nat
  | Termination.normal => 0
  | Termination.uncaught _ => 1

/-- The launch-time world of the process: command-line arguments,
environment variables, whether the external feed process happens to be
running, the interpreter-provided script path, the invocation working
directory, and the event that ends the accept loop. The script consults
only the last three. -/
structure World where
  argv : List String
  env : List (String × String)
  feedRunning : Bool
  file : String
  cwd : String
  serveEvent : ServeEvent
deriving Repr, DecidableEq

/-- The observable outcome of running the process: the lines printed to
stdout (one entry per print call), the termination mode, the addresses
on which a listener was successfully bound, and whether a listening
socket is still open when the process exits (the with-statement and the
TCPServer constructor both close the socket on every exit path). -/
structure ProcResult where
  stdout : List String
  termination : Termination
  boundListeners : List (String × Nat)
  listenerOpenAtExit : Bool
deriving Repr, DecidableEq

/-- serve_dashboard.py lines 36 and 38 and 42: the "=" * 60 separator. -/
def sixtyEquals : String := String.mk (List.replicate 60 '=')

/-- serve_dashboard.py lines 36-46: the startup banner printed by main
before the bind is attempted, one list entry per print call. It is a
pure function of SCRIPT_DIR (and the PORT constant): nothing about the
feed process is consulted. -/
def banner (scriptDir : String) : List String :=
  [ sixtyEquals,
    "🚀 Lineage Trading Dashboard HTTP Server",
    sixtyEquals,
    "📁 Serving files from: " ++ scriptDir,
    "🌐 Open in browser: http://localhost:" ++ toString PORT ++ "/dashboard.html",
    "📊 WebSocket endpoint: ws://127.0.0.1:9001",
    sixtyEquals,
    "\n⚠️  Make sure the WebSocket server is running:",
    "    cargo run --example ws_broadcast_v2 --release",
    "\n✅ Starting HTTP server...",
    "   Press Ctrl+C to stop\n" ]

/-- serve_dashboard.py line 50: printed once the bind succeeded. -/
def listeningLine : String :=
  "📡 Listening on http://localhost:" ++ toString PORT ++ "/"

/-- serve_dashboard.py line 53: the shutdown acknowledgment printed on
KeyboardInterrupt. -/
def stoppedLine : String := "\n\n✋ Server stopped"

/-- serve_dashboard.py lines 56 and 59: the diagnostic naming the busy
port, shared by both recognized errno branches. -/
def portInUseLine : String :=
  "❌ Port " ++ toString PORT ++ " is already in use"

/-- serve_dashboard.py line 57: the suggestion printed in the errno 48
branch. -/
def posixHint : String :=
  "   Try a different port: python serve_dashboard.py --port 8001"

/-- serve_dashboard.py line 60: the suggestion printed in the errno
10048 branch. -/
def windowsHint : String :=
  "   Try a different port or kill the process using this port"

/-- serve_dashboard.py lines 35-63, the body of main given SCRIPT_DIR:
print the banner; then either the bind succeeds, the listening line is
printed, serve_forever runs until KeyboardInterrupt and the with-block
closes the socket before the shutdown line is printed and main returns —
or the TCPServer constructor raises OSError(errno), which the except
clause maps to the port-in-use diagnostic (returning normally) when the
errno is 48 or 10048, and re-raises otherwise. -/
def mainBody (scriptDir : String) (ev : ServeEvent) : ProcResult :=
  match ev with
  | ServeEvent.interrupted =>
      { stdout := banner scriptDir ++ [listeningLine, stoppedLine]
        termination := Termination.normal
        boundListeners := [("", PORT)]
        listenerOpenAtExit := false }
  | ServeEvent.bindError e =>
      if e = 48 then
        { stdout := banner scriptDir ++ [portInUseLine, posixHint]
          termination := Termination.normal
          boundListeners := []
          listenerOpenAtExit := false }
      else if e = 10048 then
        { stdout := banner scriptDir ++ [portInUseLine, windowsHint]
          termination := Termination.normal
          boundListeners := []
          listenerOpenAtExit := false }
      else
        { stdout := banner scriptDir
          termination := Termination.uncaught e
          boundListeners := []
          listenerOpenAtExit := false }

/-- serve_dashboard.py main (lines 35-63) as a function of the world:
only the script path, the invocation cwd and the serve event are
consulted — argv, environment variables and the feed-process state are
ignored. -/
def main (w : World) : ProcResult :=
  mainBody (SCRIPT_DIR w.file w.cwd) w.serveEvent

/-- A process-level effect, in program order: a change of the process
working directory, a bind attempt for a listening socket, or a printed
line. -/
inductive Effect where
  | chdir (dir : String)
  | bindListener (host : String) (port : Nat)
  | output (line : String)
deriving Repr, DecidableEq

/-- serve_dashboard.py lines 17-23: the module-level statements run
at import time. The only effect is os.chdir(SCRIPT_DIR) (line 21);
the assignments to SCRIPT_DIR and PORT are pure. -/
def moduleImportEffects (file cwd : String) : List Effect :=
  [Effect.chdir (SCRIPT_DIR file cwd)]

/-- The effects of main in program order: the banner prints, the single
bind attempt, then the event-dependent tail prints. -/
def mainEffects (scriptDir : String) (ev : ServeEvent) : List Effect :=
  ((banner scriptDir).map Effect.output) ++ [Effect.bindListener "" PORT] ++
  (match ev with
   | ServeEvent.interrupted => [Effect.output listeningLine, Effect.output stoppedLine]
   | ServeEvent.bindError e =>
      if e = 48 then [Effect.output portInUseLine, Effect.output posixHint]
      else if e = 10048 then [Effect.output portInUseLine, Effect.output windowsHint]
      else [])

/-- serve_dashboard.py lines 17-65 under the __main__ guard: the import
effects followed by the effects of main. -/
def programTrace (w : World) : List Effect :=
  moduleImportEffects w.file w.cwd ++ mainEffects (SCRIPT_DIR w.file w.cwd) w.serveEvent

/-- Recognize a chdir effect. -/
def isChdir : Effect → Bool
  | Effect.chdir _ => true
  | _ => false

/-- Recognize a bind attempt. -/
def isBind : Effect → Bool
  | Effect.bindListener _ _ => true
  | _ => false

/-- The process working directory after a list of effects, starting from
the given directory: chdir is a process-global mutation; nothing else
touches the working directory. -/
def runCwd : String → List Effect → String
  | c, [] => c
  | _, Effect.chdir d :: rest => runCwd d rest
  | c, _ :: rest => runCwd c rest

/-- A freshly accepted connection handler for a GET of /missing.xyz:
empty buffers, empty output, concrete environment strings. -/
def hFresh : Handler :=
  ⟨"GET /missing.xyz HTTP/1.1", [], [], [], [], "SimpleHTTP/0.6 Python/3.11.2",
   "Sun, 12 Oct 2026 00:00:00 GMT", "Sun, 12 Oct 2026 00:00:00 GMT"⟩

/-- A filesystem holding the dashboard page. -/
def fsDash : Fs := ⟨[("/dashboard.html", "<html><body>dashboard</body></html>")]⟩

/-- A concrete launch world whose accept loop ends with an interrupt. -/
def wInterrupt : World :=
  ⟨[], [], false, "/repo/examples/serve_dashboard.py", "/home/dev", ServeEvent.interrupted⟩

/-- A concrete launch world whose bind fails with errno 48. -/
def w48 : World :=
  ⟨[], [], false, "/repo/examples/serve_dashboard.py", "/home/dev", ServeEvent.bindError 48⟩

/-- A concrete launch world whose bind fails with errno 10048. -/
def w10048 : World :=
  ⟨[], [], false, "/repo/examples/serve_dashboard.py", "/home/dev", ServeEvent.bindError 10048⟩

/-- A concrete launch world whose bind fails with errno 98 (the Linux
EADDRINUSE value, which the script does not recognize). -/
def w98 : World :=
  ⟨[], [], false, "/repo/examples/serve_dashboard.py", "/home/dev", ServeEvent.bindError 98⟩

lemma main_eq (w : World) : main w = mainBody (SCRIPT_DIR w.file w.cwd) w.serveEvent := rfl

lemma mainBody_bind48 (sd : String) :
    mainBody sd (ServeEvent.bindError 48) =
      { stdout := banner sd ++ [portInUseLine, posixHint]
        termination := Termination.normal
        boundListeners := []
        listenerOpenAtExit := false } := by
  simp [mainBody]

lemma mainBody_bind10048 (sd : String) :
    mainBody sd (ServeEvent.bindError 10048) =
      { stdout := banner sd ++ [portInUseLine, windowsHint]
        termination := Termination.normal
        boundListeners := []
        listenerOpenAtExit := false } := by
  simp [mainBody]

lemma portInUseLine_eq : portInUseLine = "❌ Port 8000 is already in use" := by decide

lemma posixHint_split :
    posixHint = "   Try a different port" ++ ": python serve_dashboard.py --port 8001" := by decide

lemma windowsHint_split :
    windowsHint = "   Try a different port" ++ " or kill the process using this port" := by decide

lemma dashboardLine_eq :
    "🌐 Open in browser: http://localhost:" ++ toString PORT ++ "/dashboard.html" =
      "🌐 Open in browser: http://localhost:8000/dashboard.html" := by decide

lemma filter_isBind (w : World) :
    (programTrace w).filter isBind = [Effect.bindListener "" 8000] := by
  rcases w with ⟨argv, env, fr, file, cwd, ev⟩
  cases ev with
  | interrupted =>
      simp [programTrace, mainEffects, moduleImportEffects, isBind, banner, PORT]
  | bindError e =>
      simp only [programTrace, mainEffects, moduleImportEffects]
      split_ifs <;> simp [isBind, banner, PORT]

lemma banner_take (w : World) :
    (main w).stdout.take 11 = banner (SCRIPT_DIR w.file w.cwd) := by
  have hlen : (banner (SCRIPT_DIR w.file w.cwd)).length = 11 := by simp [banner]
  rw [main_eq]
  cases hev : w.serveEvent with
  | interrupted => rw [mainBody]; exact List.take_left' hlen
  | bindError e =>
      rw [mainBody]
      split_ifs
      · exact List.take_left' hlen
      · exact List.take_left' hlen
      · rw [← hlen]; simp

lemma runCwd_mainEffects (sd c : String) (ev : ServeEvent) :
    runCwd c (mainEffects sd ev) = c := by
  cases ev with
  | interrupted => simp [mainEffects, banner, runCwd]
  | bindError e =>
      simp only [mainEffects]
      split_ifs <;> simp [banner, runCwd]

/-- C1: every response the server finalizes — whatever the request path
or status code — goes through the overridden end_headers, which puts
exactly the header Cache-Control: no-store, no-cache, must-revalidate,
max-age=0 on the wire: the pair is in the flushed header block of every
end_headers call, and a complete GET (found or missing file alike)
emits it exactly once. -/
theorem cache_control_injected_unconditionally :
    (∀ h : Handler,
      HeaderLine.header "Cache-Control" cacheControlValue ∈ (end_headers h).wire) ∧
    (∀ (fs : Fs) (h : Handler) (p : String), h.headersBuffer = [] → h.wire = [] →
      HeaderLine.header "Cache-Control" cacheControlValue ∈ (do_GET fs h p).wire ∧
      (do_GET fs h p).wire.count (HeaderLine.header "Cache-Control" cacheControlValue) = 1) := by
  constructor
  · intro h
    simp [end_headers, base_end_headers, flush_headers, send_header]
  · intro fs h p hb hw
    rcases hfind : fs.files.lookup p with _ | content <;>
      simp [do_GET, send_head, hfind, send_error, responses, send_response, send_response_only,
        send_header, log_error, log_request, log_message, end_headers, base_end_headers,
        flush_headers, hb, hw, List.count_append, List.count_cons, cacheControlValue]

/-- Witness for C1 at a concrete 404 request: the fresh handler's buffer
and wire are empty, and the finished response carries the no-cache
header exactly once. -/
theorem cache_control_injected_unconditionally_witness :
    HeaderLine.header "Cache-Control" cacheControlValue ∈ (do_GET ⟨[]⟩ hFresh "/missing.xyz").wire ∧
    (do_GET ⟨[]⟩ hFresh "/missing.xyz").wire.count
      (HeaderLine.header "Cache-Control" cacheControlValue) = 1 :=
  cache_control_injected_unconditionally.2 ⟨[]⟩ hFresh "/missing.xyz" rfl rfl

/-- C2: every call of the overridden logging hook writes exactly one
line to stdout, equal to the literal prefix followed by the original
format string interpolated with the original arguments; log_error
forwards to it unchanged, and nothing but stdout is touched. -/
theorem log_message_prefixes_and_forwards (h : Handler) (fmt : String) (args : List String) :
    (log_message h fmt args).stdout = h.stdout ++ ["[HTTP] " ++ percentInterp fmt args] ∧
    log_error h fmt args = log_message h fmt args ∧
    (log_message h fmt args).wire = h.wire ∧
    (log_message h fmt args).bodyWire = h.bodyWire ∧
    (log_message h fmt args).headersBuffer = h.headersBuffer :=
  ⟨rfl, rfl, rfl, rfl, rfl⟩

/-- C3 counterexample: a completed GET of a missing path writes two log
lines, not one — the collaborator's send_error logs the error through
log_error and then logs the request a second time through
send_response/log_request, both landing in the overridden hook. -/
theorem log_line_count_counterexample :
    (do_GET ⟨[]⟩ hFresh "/missing.xyz").stdout.length = 2 ∧
    ¬ (do_GET ⟨[]⟩ hFresh "/missing.xyz").stdout.length = 1 := by
  constructor
  · rfl
  · decide

/-- C3 amended: every completed request writes at least one log line and
every written line carries the literal prefix; a request for an existing
file writes exactly one line, while the 404 error path writes two. -/
theorem log_lines_per_request (fs : Fs) (h : Handler) (p : String) (h0 : h.stdout = []) :
    1 ≤ (do_GET fs h p).stdout.length ∧
    (∀ line ∈ (do_GET fs h p).stdout, ∃ t, line = "[HTTP] " ++ t) ∧
    ((fs.files.lookup p).isSome → (do_GET fs h p).stdout.length = 1) ∧
    ((fs.files.lookup p).isNone → (do_GET fs h p).stdout.length = 2) := by
  rcases hfind : fs.files.lookup p with _ | content <;>
    simp [do_GET, send_head, hfind, send_error, responses, send_response, send_response_only,
      send_header, log_error, log_request, log_message, end_headers, base_end_headers,
      flush_headers, h0]

/-- Witness for the amended C3 at a concrete 200 request. -/
theorem log_lines_per_request_witness :
    1 ≤ (do_GET fsDash hFresh "/dashboard.html").stdout.length ∧
    (∀ line ∈ (do_GET fsDash hFresh "/dashboard.html").stdout, ∃ t, line = "[HTTP] " ++ t) ∧
    ((fsDash.files.lookup "/dashboard.html").isSome →
      (do_GET fsDash hFresh "/dashboard.html").stdout.length = 1) ∧
    ((fsDash.files.lookup "/dashboard.html").isNone →
      (do_GET fsDash hFresh "/dashboard.html").stdout.length = 2) :=
  log_lines_per_request fsDash hFresh "/dashboard.html" rfl

/-- C4: a bind failure ends in a normal (diagnostic-printing) return
exactly when its errno is one of the two recognized codes 48 and 10048;
in that case a diagnostic naming port 8000 and a line suggesting a
different port are printed, the trace holds exactly one bind attempt
(no port-hunting or retry), and no listener is bound. -/
theorem bind_in_use_recognized_by_two_codes (w : World) (e : Int)
    (hw : w.serveEvent = ServeEvent.bindError e) :
    ((main w).termination = Termination.normal ↔ (e = 48 ∨ e = 10048)) ∧
    ((e = 48 ∨ e = 10048) →
      "❌ Port 8000 is already in use" ∈ (main w).stdout ∧
      (∃ rest, ("   Try a different port" ++ rest) ∈ (main w).stdout) ∧
      (programTrace w).filter isBind = [Effect.bindListener "" 8000] ∧
      (main w).boundListeners = []) := by
  constructor
  · rw [main_eq, hw]
    simp only [mainBody]
    split_ifs with h1 h2
    · simp [h1]
    · simp [h2]
    · simp [h1, h2]
  · rintro (rfl | rfl)
    · rw [main_eq, hw, mainBody_bind48]
      refine ⟨?_, ⟨": python serve_dashboard.py --port 8001", ?_⟩, filter_isBind w, rfl⟩
      · exact List.mem_append_right _ (by rw [← portInUseLine_eq]; simp)
      · exact List.mem_append_right _ (by rw [← posixHint_split]; simp)
    · rw [main_eq, hw, mainBody_bind10048]
      refine ⟨?_, ⟨" or kill the process using this port", ?_⟩, filter_isBind w, rfl⟩
      · exact List.mem_append_right _ (by rw [← portInUseLine_eq]; simp)
      · exact List.mem_append_right _ (by rw [← windowsHint_split]; simp)

/-- Witness for C4 at errno 48. -/
theorem bind_in_use_recognized_by_two_codes_witness :
    ((main w48).termination = Termination.normal ↔ ((48 : Int) = 48 ∨ (48 : Int) = 10048)) ∧
    ("❌ Port 8000 is already in use" ∈ (main w48).stdout ∧
      (∃ rest, ("   Try a different port" ++ rest) ∈ (main w48).stdout) ∧
      (programTrace w48).filter isBind = [Effect.bindListener "" 8000] ∧
      (main w48).boundListeners = []) :=
  ⟨(bind_in_use_recognized_by_two_codes w48 48 rfl).1,
   (bind_in_use_recognized_by_two_codes w48 48 rfl).2 (Or.inl rfl)⟩

/-- C5: a bind failure with any errno other than 48 and 10048 is
re-raised unchanged: the process terminates with the original errno
uncaught and a nonzero exit status. -/
theorem bind_other_errno_reraised (w : World) (e : Int)
    (hw : w.serveEvent = ServeEvent.bindError e) (he : ¬ (e = 48 ∨ e = 10048)) :
    (main w).termination = Termination.uncaught e ∧
    exitCode (main w).termination ≠ 0 := by
  have h1 : ¬ e = 48 := fun h => he (Or.inl h)
  have h2 : ¬ e = 10048 := fun h => he (Or.inr h)
  rw [main_eq, hw]
  simp [mainBody, h1, h2, exitCode]

/-- Witness for C5 at errno 98 (Linux EADDRINUSE, unrecognized). -/
theorem bind_other_errno_reraised_witness :
    (main w98).termination = Termination.uncaught 98 ∧
    exitCode (main w98).termination ≠ 0 :=
  bind_other_errno_reraised w98 98 rfl (by decide)

/-- C6 counterexample: at the recognized errno 48 the exception is
swallowed, not propagated — the process terminates normally with exit
status 0 after printing the diagnostic, so the error condition does not
determine the exit status. -/
theorem swallowed_bind_error_counterexample :
    exitCode (main w48).termination = 0 ∧
    (main w48).termination = Termination.normal ∧
    (main w48).termination ≠ Termination.uncaught 48 ∧
    "❌ Port 8000 is already in use" ∈ (main w48).stdout := by
  refine ⟨rfl, rfl, by decide, ?_⟩
  have hse : w48.serveEvent = ServeEvent.bindError 48 := rfl
  rw [main_eq, hse, mainBody_bind48]
  exact List.mem_append_right _ (by rw [← portInUseLine_eq]; simp)

/-- C6 amended: a recognized port-in-use failure prints the diagnostic
and then terminates normally — the exception is swallowed rather than
propagated, so the exit status is 0; no custom exit code is assigned. -/
theorem recognized_bind_error_exits_zero (w : World) (e : Int)
    (hw : w.serveEvent = ServeEvent.bindError e) (he : e = 48 ∨ e = 10048) :
    "❌ Port 8000 is already in use" ∈ (main w).stdout ∧
    (main w).termination = Termination.normal ∧
    exitCode (main w).termination = 0 := by
  rcases he with rfl | rfl
  · rw [main_eq, hw, mainBody_bind48]
    exact ⟨List.mem_append_right _ (by rw [← portInUseLine_eq]; simp), rfl, rfl⟩
  · rw [main_eq, hw, mainBody_bind10048]
    exact ⟨List.mem_append_right _ (by rw [← portInUseLine_eq]; simp), rfl, rfl⟩

/-- Witness for the amended C6 at errno 10048. -/
theorem recognized_bind_error_exits_zero_witness :
    "❌ Port 8000 is already in use" ∈ (main w10048).stdout ∧
    (main w10048).termination = Termination.normal ∧
    exitCode (main w10048).termination = 0 :=
  recognized_bind_error_exits_zero w10048 10048 rfl (Or.inr rfl)

/-- C7: an interrupt during the accept loop ends in a normal return with
exit status 0, the shutdown acknowledgment is printed, no exception
escapes (the termination mode is normal), and no listening socket is
left open. -/
theorem interrupt_graceful_shutdown (w : World)
    (hw : w.serveEvent = ServeEvent.interrupted) :
    (main w).termination = Termination.normal ∧
    exitCode (main w).termination = 0 ∧
    stoppedLine ∈ (main w).stdout ∧
    (main w).listenerOpenAtExit = false := by
  rw [main_eq, hw]
  exact ⟨rfl, rfl, List.mem_append_right _ (by simp), rfl⟩

/-- Witness for C7 at a concrete interrupted world. -/
theorem interrupt_graceful_shutdown_witness :
    (main wInterrupt).termination = Termination.normal ∧
    exitCode (main wInterrupt).termination = 0 ∧
    stoppedLine ∈ (main wInterrupt).stdout ∧
    (main wInterrupt).listenerOpenAtExit = false :=
  interrupt_graceful_shutdown wInterrupt rfl

/-- C8: the trace of every run holds exactly one bind attempt, on the
empty host (all interfaces) at port 8000; when the bind succeeds that
is the one listener bound; and the run is a launch-time constant in the
sense that argv, the environment and the feed-process state do not
affect it — PORT itself is the literal 8000. -/
theorem single_listener_fixed_config :
    (∀ w : World, w.serveEvent = ServeEvent.interrupted →
      (main w).boundListeners = [("", 8000)]) ∧
    (∀ w : World, (programTrace w).filter isBind = [Effect.bindListener "" 8000]) ∧
    (∀ (w : World) (argv : List String) (env : List (String × String)) (fr : Bool),
      main { w with argv := argv, env := env, feedRunning := fr } = main w ∧
      programTrace { w with argv := argv, env := env, feedRunning := fr } = programTrace w) ∧
    PORT = 8000 := by
  refine ⟨?_, filter_isBind, fun w argv env fr => ⟨rfl, rfl⟩, rfl⟩
  intro w hw
  rw [main_eq, hw]
  rfl

/-- Witness for C8 at a concrete interrupted world. -/
theorem single_listener_fixed_config_witness :
    (main wInterrupt).boundListeners = [("", 8000)] :=
  single_listener_fixed_config.1 wInterrupt rfl

/-- C9: for a script path with an absolute parent directory, SCRIPT_DIR
is that parent directory whatever the invocation cwd; the banner printed
before the listening line (the first eleven prints of every run) names
the serving root, the dashboard URL and the fixed feed endpoint on port
9001; and the run is oblivious to whether the feed is running. -/
theorem script_dir_and_banner (w : World)
    (hne : parentDir w.file ≠ ".")
    (habs : isAbsolutePath (parentDir w.file) = true) :
    SCRIPT_DIR w.file w.cwd = parentDir w.file ∧
    ("📁 Serving files from: " ++ SCRIPT_DIR w.file w.cwd) ∈ (main w).stdout ∧
    "🌐 Open in browser: http://localhost:8000/dashboard.html" ∈ (main w).stdout ∧
    "📊 WebSocket endpoint: ws://127.0.0.1:9001" ∈ (main w).stdout ∧
    (main w).stdout.take 11 = banner (SCRIPT_DIR w.file w.cwd) ∧
    (∀ fr : Bool, main { w with feedRunning := fr } = main w) := by
  refine ⟨by simp [SCRIPT_DIR, absolutize, hne, habs], List.take_subset 11 _ ?_,
    List.take_subset 11 _ ?_, List.take_subset 11 _ ?_, banner_take w, fun fr => rfl⟩ <;>
    rw [banner_take] <;> simp [banner, dashboardLine_eq]

/-- Witness for C9 at a concrete interrupted world with an absolute
script path. -/
theorem script_dir_and_banner_witness :
    SCRIPT_DIR wInterrupt.file wInterrupt.cwd = parentDir wInterrupt.file ∧
    ("📁 Serving files from: " ++ SCRIPT_DIR wInterrupt.file wInterrupt.cwd) ∈
      (main wInterrupt).stdout ∧
    "🌐 Open in browser: http://localhost:8000/dashboard.html" ∈ (main wInterrupt).stdout ∧
    "📊 WebSocket endpoint: ws://127.0.0.1:9001" ∈ (main wInterrupt).stdout ∧
    (main wInterrupt).stdout.take 11 = banner (SCRIPT_DIR wInterrupt.file wInterrupt.cwd) ∧
    (∀ fr : Bool, main { wInterrupt with feedRunning := fr } = main wInterrupt) :=
  script_dir_and_banner wInterrupt (by decide) (by decide)

/-- C10: the program trace starts with the import-time chdir to
SCRIPT_DIR, before every effect of main (in particular before the bind);
it is the only chdir of the run; from any prior working directory
the module initialization leaves the process-global working directory
at SCRIPT_DIR; and it still is SCRIPT_DIR after the whole run. -/
theorem import_time_chdir (w : World) :
    programTrace w =
      Effect.chdir (SCRIPT_DIR w.file w.cwd) ::
        mainEffects (SCRIPT_DIR w.file w.cwd) w.serveEvent ∧
    (programTrace w).filter isChdir = [Effect.chdir (SCRIPT_DIR w.file w.cwd)] ∧
    (∀ c : String, runCwd c (moduleImportEffects w.file w.cwd) = SCRIPT_DIR w.file w.cwd) ∧
    runCwd w.cwd (programTrace w) = SCRIPT_DIR w.file w.cwd := by
  refine ⟨rfl, ?_, fun c => rfl, ?_⟩
  · rcases w with ⟨argv, env, fr, file, cwd, ev⟩
    cases ev with
    | interrupted => simp [programTrace, mainEffects, moduleImportEffects, isChdir, banner]
    | bindError e =>
        simp only [programTrace, mainEffects, moduleImportEffects]
        split_ifs <;> simp [isChdir, banner]
  · show runCwd w.cwd
        (Effect.chdir (SCRIPT_DIR w.file w.cwd) ::
          mainEffects (SCRIPT_DIR w.file w.cwd) w.serveEvent) = _
    rw [runCwd, runCwd_mainEffects]

end ServeDashboard
